import Mathlib

/-!
Shallow embedding of the trendy_scrape product-discovery pipeline
(`web_scraper.py`, `web_search.py`, `agent.py`) and verification of the
specification's claims about it.

Python strings are modelled by Lean `String` (a list of characters);
Python `None`-able values by `Option`; Python exceptions by `Except`;
JSON values (as produced by `json.loads`) by the inductive `Json` below.
External collaborators (the Firecrawl HTTP API, Selenium, BeautifulSoup,
DuckDuckGo) are modelled by explicit inputs describing their observable
responses, so every function here is the pure decision logic of the
corresponding Python function.
-/

/-- Model of Python `str.strip()` on a list of characters: drop whitespace
from the front, then from the back. -/
def stripChars (l : List Char) : List Char :=
  ((l.dropWhile Char.isWhitespace).reverse.dropWhile Char.isWhitespace).reverse

/-- Model of Python `str.strip()` on strings. -/
def pyStrip (s : String) : String := ⟨stripChars s.data⟩

/-- Model of Python `str.startswith(pre)`. -/
def pyStartsWith (s pre : String) : Bool := pre.data.isPrefixOf s.data

/-- Model of a Python value produced by `json.loads`.  A JSON number is
modelled by whether it is zero (its truthiness) together with its `str`
rendering, which is all the pipeline observes of it. -/
inductive Json where
  | null
  | bool (b : Bool)
  | num (isZero : Bool) (render : String)
  | str (s : String)
  | arr (xs : List Json)
  | obj (kvs : List (String × Json))

/-- Python truthiness of a JSON value (`if x:`). -/
def Json.truthy : Json → Bool
  | .null => false
  | .bool b => b
  | .num isZero _ => !isZero
  | .str s => s != ""
  | .arr xs => !xs.isEmpty
  | .obj kvs => !kvs.isEmpty

/-- Whether the value is a Python `dict` (supports `.get`). -/
def Json.isObj : Json → Bool
  | .obj _ => true
  | _ => false

/-- Model of Python `d.get(key)` on a dict, with `Json.null` standing for the
Python `None` returned for a missing key.  Only ever applied after an
`isObj` guard, mirroring where the source would otherwise raise. -/
def Json.getD (j : Json) (key : String) : Json :=
  match j with
  | .obj kvs =>
    match kvs.find? (fun kv => kv.1 == key) with
    | some kv => kv.2
    | none => .null
  | _ => .null

/-- Model of Python `str(x)` for JSON values.  Lists and dicts render with a
leading bracket, so for the pipeline the only relevant fact is that their
rendering never equals "product"; we use fixed placeholder renderings. -/
def pyStr : Json → String
  | .null => "None"
  | .bool true => "True"
  | .bool false => "False"
  | .num _ render => render
  | .str s => s
  | .arr _ => "[...]"
  | .obj _ => "\x7b...\x7d"

/-- Model of Python `str.lower()`, mapping `Char.toLower` over the
characters. -/
def pyLower (s : String) : String := ⟨s.data.map Char.toLower⟩

/-- Model of Python `a or b` under truthiness. -/
def pyOr (a b : Json) : Json := if a.truthy then a else b

/-- Truthiness of a Python value that is either a string or `None`. -/
def optStrTruthy : Option String → Bool
  | some s => s != ""
  | none => false

/-- Model of Python `a or b` where both operands are strings or `None`. -/
def pyOrOpt (a b : Option String) : Option String :=
  if optStrTruthy a then a else b

/-- Embed a Python string-or-`None` value into `Json`. -/
def optToJson : Option String → Json
  | some s => .str s
  | none => .null

/-- Model of Python exceptions observed by the pipeline. -/
inductive PyErr where
  | valueError (msg : String)
  | attributeError (msg : String)
  | seleniumError (msg : String)

/-- Embedding of `normalize_url` (web_scraper.py, lines 25-33): reject empty
or whitespace-only input with `None`, prepend "https://" when the scheme
is missing. -/
def normalize_url (url : String) : Option String :=
  if url = "" then none
  else if pyStrip url = "" then none
  else if pyStartsWith (pyStrip url) "http://" || pyStartsWith (pyStrip url) "https://" then
    some (pyStrip url)
  else some ("https://" ++ pyStrip url)

example : normalize_url "" = none := by decide
example : normalize_url "   " = none := by decide
example : normalize_url "example.com/x" = some "https://example.com/x" := by decide
example : normalize_url "  http://a.b " = some "http://a.b" := by decide

/-- How many times each fetch strategy was invoked during one call of the
content-fetch chain. -/
structure FetchTrace where
  firecrawlCalls : Nat
  seleniumCalls : Nat

/-- Embedding of the strategy-chain part of `scrape_website` (web_scraper.py,
lines 95-105): `scrape_with_firecrawl` is modelled by its observable outcome
`fc : String → Option String` (it catches all of its own exceptions and
returns the HTML or `None`), and `scrape_with_selenium` by
`sel : String → Except PyErr String` (it returns the rendered page source,
which may be empty, or raises).  The Python `if html:` test treats both
`None` and the empty string as failure; the selenium outcome — HTML or raw
exception — is returned unchanged. -/
def scrapeChain (fc : String → Option String) (sel : String → Except PyErr String)
    (u : String) : Except PyErr String × FetchTrace :=
  match fc u with
  | some html =>
    if html ≠ "" then (.ok html, ⟨1, 0⟩)
    else (sel u, ⟨1, 1⟩)
  | none => (sel u, ⟨1, 1⟩)

/-- Embedding of `scrape_website` (web_scraper.py, lines 77-105): validate and
normalize the URL (raising `ValueError` on empty or unnormalizable input, or
when the optional `validators` module rejects the normalized URL), then run
the fetch-strategy chain. -/
def scrape_website (fc : String → Option String) (sel : String → Except PyErr String)
    (validators : Option (String → Bool)) (url : String) :
    Except PyErr String × FetchTrace :=
  if url = "" then
    (.error (.valueError "scrape_website expected a non-empty URL but got None/empty."), ⟨0, 0⟩)
  else
    match normalize_url url with
    | none => (.error (.valueError "Cannot normalize URL"), ⟨0, 0⟩)
    | some u =>
      match validators with
      | some v =>
        if v u then scrapeChain fc sel u
        else (.error (.valueError "Normalized URL does not appear valid"), ⟨0, 0⟩)
      | none => scrapeChain fc sel u

/-- Observable outcome of the Firecrawl search HTTP exchange in
`firecrawl_search` (web_search.py, lines 24-61): missing API key, transport
error, non-200 status, unparsable JSON body, or a parsed JSON body. -/
inductive FirecrawlResponse where
  | noKey
  | netError (msg : String)
  | httpStatus (code : Nat)
  | badJson
  | ok (data : Json)

/-- Embedding of the known-result-key harvest in `firecrawl_search`
(web_search.py, lines 66-72): from a list of result items, keep each dict
item's first truthy value among `url`, `link`, `target`.  Python appends the
raw JSON value, so the result is a list of JSON values, not necessarily
strings. -/
def harvestItems (items : List Json) : List Json :=
  items.filterMap (fun it =>
    if it.isObj then
      let url := pyOr (it.getD "url") (pyOr (it.getD "link") (it.getD "target"))
      if url.truthy then some url else none
    else none)

mutual

/-- Embedding of `extract_urls_from_obj` (web_search.py, lines 77-88):
recursively collect every string in the JSON structure that starts with
"http". -/
def extract_urls_from_obj : Json → List String
  | .obj kvs => urlsFromPairs kvs
  | .arr xs => urlsFromList xs
  | .str s => if pyStartsWith s "http" then [s] else []
  | _ => []

/-- Helper of `extract_urls_from_obj` for `for v in obj: ...` recursion. -/
def urlsFromList : List Json → List String
  | [] => []
  | j :: rest => extract_urls_from_obj j ++ urlsFromList rest

/-- Helper of `extract_urls_from_obj` for `for v in obj.values(): ...`
recursion. -/
def urlsFromPairs : List (String × Json) → List String
  | [] => []
  | kv :: rest => extract_urls_from_obj kv.2 ++ urlsFromPairs rest

end

/-- Order-preserving deduplication with an accumulator of already-seen
elements, modelling the `seen` set / `uniq` list idiom used in
`firecrawl_search` (lines 92-97) and `ddg_search` (lines 134-139). -/
def dedupeAux (seen : List String) : List String → List String
  | [] => []
  | u :: rest => if u ∈ seen then dedupeAux seen rest else u :: dedupeAux (u :: seen) rest

/-- Order-preserving deduplication, first occurrence kept. -/
def dedupe (l : List String) : List String := dedupeAux [] l

/-- Embedding of the result-parsing loop of `firecrawl_search` (web_search.py,
lines 64-98): probe the keys "results", "data", "items" in order,
accumulating harvested URL values; after each list-valued key, return the
accumulated values (truncated) if any; otherwise fall back to the deep walk
`extract_urls_from_obj`, deduplicated and truncated. -/
def firecrawlGo (data : Json) (n : Nat) : List String → List Json → List Json
  | [], _ => ((dedupe (extract_urls_from_obj data)).map Json.str).take n
  | key :: rest, results =>
    match data.getD key with
    | .arr items =>
      let results := results ++ harvestItems items
      if results.isEmpty then firecrawlGo data n rest results else results.take n
    | _ => firecrawlGo data n rest results

/-- Embedding of `firecrawl_search` (web_search.py, lines 24-98).  The query
and site only shape the outgoing request payload; the returned list depends
on the response.  Every failure outcome returns the empty list.  When the
response body parses to a non-dict JSON value, `data.get(key)` raises
`AttributeError`, which the source does not catch. -/
def firecrawl_search (resp : FirecrawlResponse) (query site : String) (n : Nat) :
    Except PyErr (List Json) :=
  match resp with
  | .noKey => .ok []
  | .netError _ => .ok []
  | .httpStatus _ => .ok []
  | .badJson => .ok []
  | .ok data =>
    if data.isObj then .ok (firecrawlGo data n ["results", "data", "items"] [])
    else .error (.attributeError "get")

/-- Embedding of the anchor-collection loop of `ddg_search` (web_search.py,
lines 123-131): skip site-internal hrefs (starting with "/"), collect hrefs
starting with "http", stop once the requested count is reached. -/
def ddgLoop (n : Nat) (acc : List String) : List String → List String
  | [] => acc
  | href :: rest =>
    if pyStartsWith href "/" then ddgLoop n acc rest
    else
      let acc2 := if pyStartsWith href "http" then acc ++ [href] else acc
      if n ≤ acc2.length then acc2 else ddgLoop n acc2 rest

/-- Embedding of `ddg_search` (web_search.py, lines 103-140): `resp` is the
observable outcome of the HTTP exchange — `none` for a transport/HTTP error
(empty result), or the `href` attributes of the document's anchors in
document order.  The collected links are deduplicated in first-seen order
and truncated. -/
def ddg_search (resp : Option (List String)) (query : String) (n : Nat) : List String :=
  match resp with
  | none => []
  | some hrefs => (dedupe (ddgLoop n [] hrefs)).take n

/-- Site-qualified fallback query built by `search_all` (web_search.py,
line 152). -/
def ddgQuery (site query : String) : String :=
  (if site ≠ "" then "site:" ++ site ++ " " else "") ++ query

/-- How many times each search strategy was invoked during one call of the
search chain. -/
structure SearchTrace where
  fcCalls : Nat
  ddgCalls : Nat

/-- Embedding of `search_all` (web_search.py, lines 145-153): run the
Firecrawl strategy; if it raised, the exception propagates; if it returned a
non-empty list, return it; otherwise run the DuckDuckGo fallback on the
site-qualified query.  The fallback's plain-string links are embedded into
`Json` so both branches share one result type, mirroring Python's untyped
list. -/
def search_all (fcResp : FirecrawlResponse) (ddgResp : Option (List String))
    (query site : String) (n : Nat) : Except PyErr (List Json) × SearchTrace :=
  match firecrawl_search fcResp query site n with
  | .error e => (.error e, ⟨1, 0⟩)
  | .ok fc =>
    if fc.isEmpty then
      (.ok ((ddg_search ddgResp (ddgQuery site query) n).map Json.str), ⟨1, 1⟩)
    else (.ok fc, ⟨1, 0⟩)

/-- Model of one `<meta>` tag as observed by `parse_product_page`: its
`property` attribute, its `name` attribute, and its `content` attribute. -/
structure MetaTag where
  prop : Option String
  nameAttr : Option String
  content : Option String

/-- Model of the body of one `<script type="application/ld+json">` element:
`noString` when `script.string` is `None` or empty (skipped by
`if not text`), `malformed` when `json.loads` raises, `parsed j` when it
parses to the JSON value `j`. -/
inductive ScriptBody where
  | noString
  | malformed
  | parsed (j : Json)

/-- Model of the BeautifulSoup view of a document as consumed by
`parse_product_page`: the `href` of the first `<link rel="canonical">` tag
(`none` when there is no such tag or it has no `href` attribute), the meta
tags in document order, the text of `<title>` (`none` when absent or with no
string), and the JSON-LD script bodies in document order. -/
structure Soup where
  canonical : Option String
  metas : List MetaTag
  title : Option String
  scripts : List ScriptBody

/-- Lookup of `soup.find("meta", property=p) or soup.find("meta",
attrs={"name": p})` (agent.py, line 264). -/
def findMeta (metas : List MetaTag) (p : String) : Option MetaTag :=
  match metas.find? (fun m => m.prop == some p) with
  | some t => some t
  | none => metas.find? (fun m => m.nameAttr == some p)

/-- Embedding of the inner helper `meta_prop` of `parse_product_page`
(agent.py, lines 262-269): return the stripped `content` of the first found
meta tag with truthy content, probing the given property names in order. -/
def meta_prop (metas : List MetaTag) : List String → Option String
  | [] => none
  | p :: rest =>
    match findMeta metas p with
    | some tag =>
      match tag.content with
      | some c => if c != "" then some (pyStrip c) else meta_prop metas rest
      | none => meta_prop metas rest
    | none => meta_prop metas rest

/-- Accumulator of the JSON-LD scan in `parse_product_page` (the local
variables `name`, `price`, `image` of agent.py, lines 277-279).  `name` and
`image` hold raw JSON values (`Json.null` standing for Python `None`);
`price` is always a string or `None` because it is only ever assigned
`str(...)` results. -/
structure ScanSt where
  name : Json
  price : Option String
  image : Json

/-- Outcome of processing one JSON-LD item: `abort` models an uncaught
exception inside the scan (swallowed by the `try` of lines 280-317, ending
the whole scan while keeping the accumulated state), `brk` the
`if name: break` that ends the current block's item list, `cont` normal
continuation. -/
inductive StepRes where
  | abort (st : ScanSt)
  | brk (st : ScanSt)
  | cont (st : ScanSt)

/-- The state carried by a step outcome. -/
def StepRes.st : StepRes → ScanSt
  | .abort s => s
  | .brk s => s
  | .cont s => s

/-- Embedding of the `@type` resolution (agent.py, lines 292-294):
`it.get("@type") or it.get("type")`, then first element when it is a list —
indexing an empty list raises `IndexError` (modelled as `.error`). -/
def jsonLdType (it : Json) : Except Unit Json :=
  match pyOr (it.getD "@type") (it.getD "type") with
  | .arr [] => .error ()
  | .arr (x :: _) => .ok x
  | t => .ok t

/-- Embedding of the price lookup (agent.py, line 302):
`offers.get("price") or (offers.get("priceSpecification") or {}).get("price")`
with Python short-circuit evaluation; calling `.get` on a truthy non-dict
`priceSpecification` raises `AttributeError` (modelled as `.error`). -/
def offersPrice (offers : Json) : Except Unit Json :=
  let p1 := offers.getD "price"
  if p1.truthy then .ok p1
  else
    let ps := offers.getD "priceSpecification"
    if ps.truthy then
      if ps.isObj then .ok (ps.getD "price") else .error ()
    else .ok .null

/-- First element of a Python list, the value itself otherwise — the
`offers = offers[0]` step of agent.py line 301 (only reached when the value
is truthy, hence a truthy list is non-empty). -/
def firstIfList : Json → Json
  | .arr (x :: _) => x
  | o => o

/-- The `if not name: name = it.get("name")` step (agent.py, lines
296-297). -/
def applyName (st : ScanSt) (it : Json) : ScanSt :=
  if st.name.truthy then st else { st with name := it.getD "name" }

/-- The `if price_val: price = str(price_val)` step (agent.py, lines
303-304). -/
def applyPriceVal (st : ScanSt) (price_val : Json) : ScanSt :=
  if price_val.truthy then { st with price := some (pyStr price_val) } else st

/-- The currency-append step (agent.py, lines 305-307):
`if currency and price: price = f"{price} {currency}"`. -/
def applyCurrency (st : ScanSt) (offers : Json) : ScanSt :=
  if (pyOr (offers.getD "priceCurrency") (offers.getD "currency")).truthy
      && optStrTruthy st.price then
    { st with price := some ((st.price.getD "") ++ " "
        ++ pyStr (pyOr (offers.getD "priceCurrency") (offers.getD "currency"))) }
  else st

/-- The image assignment (agent.py, lines 308-313): store `it["image"]`
(first element when a list) when truthy. -/
def applyImage (st : ScanSt) (it : Json) : ScanSt :=
  if (it.getD "image").truthy then
    { st with image := match it.getD "image" with | .arr (x :: _) => x | j => j }
  else st

/-- The `if name: break` test ending a Product item (agent.py, lines
314-315). -/
def brkOrCont (st : ScanSt) : StepRes :=
  if st.name.truthy then .brk st else .cont st

/-- Embedding of the image assignment and loop-break test at the end of the
Product branch (agent.py, lines 308-315). -/
def finishItem (st : ScanSt) (it : Json) : StepRes :=
  brkOrCont (applyImage st it)

/-- Embedding of the Product branch of the JSON-LD scan (agent.py, lines
296-315): keep an existing name, read the price (and append a currency code)
from `offers` (first element when a list; `.get` on a non-dict raises), then
the image, then break when a name is present. -/
def productBranch (st0 : ScanSt) (it : Json) : StepRes :=
  if (it.getD "offers").truthy then
    if (firstIfList (it.getD "offers")).isObj then
      match offersPrice (firstIfList (it.getD "offers")) with
      | .error _ => .abort (applyName st0 it)
      | .ok price_val =>
        finishItem (applyCurrency (applyPriceVal (applyName st0 it) price_val)
          (firstIfList (it.getD "offers"))) it
    else .abort (applyName st0 it)
  else finishItem (applyName st0 it) it

/-- Embedding of the body of `for it in items:` (agent.py, lines 291-315):
`.get` on a non-dict item raises `AttributeError` (aborting the scan), a
non-Product item is skipped, a Product item runs the Product branch. -/
def processItem (st : ScanSt) (it : Json) : StepRes :=
  if it.isObj then
    match jsonLdType it with
    | .error _ => .abort st
    | .ok it_type =>
      if it_type.truthy && pyLower (pyStr it_type) == "product" then
        productBranch st it
      else .cont st
  else .abort st

/-- Embedding of the `for it in items:` loop: `.error` is an aborted scan
(exception caught by the outer `try`), `.ok` a completed or broken-out item
list. -/
def processItems (st : ScanSt) : List Json → Except ScanSt ScanSt
  | [] => .ok st
  | it :: rest =>
    match processItem st it with
    | .abort st2 => .error st2
    | .brk st2 => .ok st2
    | .cont st2 => processItems st2 rest

/-- Embedding of the `for script in soup.find_all("script", ...)` loop
(agent.py, lines 281-315): skip empty or malformed bodies, wrap a non-list
top-level value in a singleton list, and process the items; an aborted item
scan ends the whole loop, keeping the accumulated state. -/
def scanScripts (st : ScanSt) : List ScriptBody → ScanSt
  | [] => st
  | .noString :: rest => scanScripts st rest
  | .malformed :: rest => scanScripts st rest
  | .parsed j :: rest =>
    match processItems st (match j with | .arr xs => xs | _ => [j]) with
    | .error st2 => st2
    | .ok st2 => scanScripts st2 rest

/-- Modelled simplification of `urllib.parse.urljoin(base, rel)` as used at
agent.py line 258, covering the shapes the pipeline meets: an absolute `rel`
wins; a scheme-relative or root-relative `rel` is attached to the base's
scheme/host; any other `rel` replaces the last path segment of the base. -/
def urljoin (base rel : String) : String :=
  if rel = "" then base
  else if pyStartsWith rel "http://" || pyStartsWith rel "https://" then rel
  else
    match base.splitOn "://" with
    | scheme :: hostPath :: _ =>
      let parts := hostPath.splitOn "/"
      let host := parts.headD ""
      if pyStartsWith rel "//" then scheme ++ ":" ++ rel
      else if pyStartsWith rel "/" then scheme ++ "://" ++ host ++ rel
      else
        let dir := String.intercalate "/" parts.dropLast
        if parts.length ≤ 1 then scheme ++ "://" ++ host ++ "/" ++ rel
        else scheme ++ "://" ++ dir ++ "/" ++ rel
    | _ => rel

/-- The product record returned by `parse_product_page` (agent.py, lines
329-336): `name` and `image` hold raw values (`Json.null` for `None`),
`price` and `raw_title` strings or `None`, `link` and `source_url` always
strings. -/
structure ProductRecord where
  name : Json
  price : Option String
  link : String
  image : Json
  source_url : String
  raw_title : Option String

/-- Embedding of `parse_product_page` (agent.py, lines 251-338).  The input
is the observable result of `BeautifulSoup(html, "html.parser")` together
with the possibility of an internal exception: `.error` models any
exception caught by the outer `try` (line 337), which yields the all-absent
record with `link`/`source_url` set to the input URL. -/
def parse_product_page (inp : Except String Soup) (url : String) : ProductRecord :=
  match inp with
  | .error _ => ⟨.null, none, url, .null, url, none⟩
  | .ok soup =>
    let canonical :=
      match soup.canonical with
      | some href => if href != "" then urljoin url href else url
      | none => url
    let og_title := meta_prop soup.metas ["og:title", "twitter:title", "title"]
    let og_image := meta_prop soup.metas ["og:image", "twitter:image", "image"]
    let og_price :=
      meta_prop soup.metas ["product:price:amount", "og:price:amount", "price", "twitter:data1"]
    let title_tag :=
      match soup.title with
      | some t => if t != "" then some (pyStrip t) else none
      | none => none
    let st := scanScripts ⟨.null, none, .null⟩ soup.scripts
    let name := if st.name.truthy then st.name else optToJson (pyOrOpt og_title title_tag)
    let image := if st.image.truthy then st.image else optToJson og_image
    let price := if optStrTruthy st.price then st.price else og_price
    let image := match image with | .arr (x :: _) => x | .arr [] => .null | j => j
    ⟨name, price, canonical, image, url, title_tag⟩

/-- Embedding of the per-candidate loop of `fetch_products_via_scrape`
(agent.py, lines 350-366): for each candidate URL, run the scraper (a raised
exception skips the candidate), skip empty HTML, parse the page (via the
modelled BeautifulSoup `parseHtml`), default an empty `link` to the
candidate URL, and accumulate in order.  The `isinstance(scraped, dict)`
branch is dead code because `scrape_website` returns a string. -/
def scrapeLoop (fetch : String → Except PyErr String)
    (parseHtml : String → Except String Soup) : List String → List ProductRecord
  | [] => []
  | url :: rest =>
    match fetch url with
    | .error _ => scrapeLoop fetch parseHtml rest
    | .ok html =>
      if html = "" then scrapeLoop fetch parseHtml rest
      else
        let parsed := parse_product_page (parseHtml html) url
        let parsed := if parsed.link = "" then { parsed with link := url } else parsed
        parsed :: scrapeLoop fetch parseHtml rest

/-- Embedding of `fetch_products_via_scrape` (agent.py, lines 343-368): an
exception raised by `search_all` yields an empty candidate list (lines
344-348); the candidates are then processed independently by the
per-candidate loop. -/
def fetch_products_via_scrape (searchRes : Except PyErr (List String))
    (fetch : String → Except PyErr String)
    (parseHtml : String → Except String Soup) : List ProductRecord :=
  let candidates := match searchRes with | .error _ => [] | .ok cs => cs
  scrapeLoop fetch parseHtml candidates

/-- Auxiliary extraction of the state carried by a finished-or-aborted item
scan. -/
def scanResultSt : Except ScanSt ScanSt → ScanSt
  | .error s => s
  | .ok s => s

/-! Helper lemmas about the Python `strip` model. -/

theorem stripChars_eq_rdrop (l : List Char) :
    stripChars l = List.rdropWhile Char.isWhitespace (l.dropWhile Char.isWhitespace) := rfl

theorem dropWhile_stripChars (l : List Char) :
    (stripChars l).dropWhile Char.isWhitespace = stripChars l := by
  rw [stripChars_eq_rdrop, List.dropWhile_eq_self_iff]
  intro hl
  have hpre := List.rdropWhile_prefix Char.isWhitespace (l.dropWhile Char.isWhitespace)
  have hlen : 0 < (l.dropWhile Char.isWhitespace).length := lt_of_lt_of_le hl hpre.length_le
  have hget := hpre.getElem (n := 0) hl
  have hhead := (List.dropWhile_eq_self_iff).mp (List.dropWhile_idempotent Char.isWhitespace l) hlen
  rw [List.get_eq_getElem, hget]
  simpa using hhead

theorem stripChars_idem (l : List Char) : stripChars (stripChars l) = stripChars l := by
  rw [stripChars_eq_rdrop (stripChars l), dropWhile_stripChars, stripChars_eq_rdrop l,
    List.rdropWhile_idempotent]

theorem stripChars_getLast_not (l : List Char) (h : stripChars l ≠ []) :
    ∀ hl : stripChars l ≠ [], Char.isWhitespace ((stripChars l).getLast hl) = false := by
  intro hl
  have := List.rdropWhile_last_not Char.isWhitespace (l.dropWhile Char.isWhitespace)
    (by rw [← stripChars_eq_rdrop]; exact hl)
  simpa [← stripChars_eq_rdrop] using this

theorem stripChars_https (w : List Char) (hw : w ≠ [])
    (hlast : ∀ h : w ≠ [], Char.isWhitespace (w.getLast h) = false) :
    stripChars ("https://".data ++ w) = "https://".data ++ w := by
  rw [stripChars_eq_rdrop]
  have h1 : ("https://".data ++ w).dropWhile Char.isWhitespace = "https://".data ++ w := by
    rw [List.dropWhile_eq_self_iff]
    intro hl
    show Char.isWhitespace ((('h' :: ("ttps://".data ++ w)).get ⟨0, hl⟩)) ≠ true
    simp
  rw [h1, List.rdropWhile_eq_self_iff]
  intro hl
  rw [List.getLast_append' _ w hw]
  simp [hlast hw]

theorem string_data_append (a b : String) : (a ++ b).data = a.data ++ b.data := by
  cases a; cases b; rfl

theorem pyStrip_idem (s : String) : pyStrip (pyStrip s) = pyStrip s :=
  String.ext (stripChars_idem s.data)

theorem data_ne_nil (s : String) (h : s ≠ "") : s.data ≠ [] := by
  intro hd
  exact h (String.ext (by simpa using hd))

theorem https_append_ne_empty (w : String) : ("https://" ++ w) ≠ "" := by
  intro h
  have hd := congrArg String.data h
  rw [string_data_append] at hd
  rw [show "https://".data = 'h' :: "ttps://".data from rfl] at hd
  simp at hd

theorem pyStrip_https (s : String) (h : pyStrip s ≠ "") :
    pyStrip ("https://" ++ pyStrip s) = "https://" ++ pyStrip s := by
  apply String.ext
  show stripChars (("https://" ++ pyStrip s).data) = ("https://" ++ pyStrip s).data
  rw [string_data_append]
  have hw : (pyStrip s).data ≠ [] := data_ne_nil _ h
  exact stripChars_https (pyStrip s).data hw (stripChars_getLast_not s.data hw)

theorem pyStartsWith_https (w : String) :
    pyStartsWith ("https://" ++ w) "https://" = true := by
  rw [pyStartsWith, string_data_append, List.isPrefixOf_iff_prefix]
  exact List.prefix_append _ _

/-- C6: the URL normalizer rejects empty and whitespace-only input (and the
top-level scraper raises the invalid-URL `ValueError` for such input), and
prepends "https://" to any non-empty input that lacks an `http://` or
`https://` prefix; in particular `normalize_url "example.com/x"` yields
`"https://example.com/x"`.  Totality and absence of I/O hold by
construction: `normalize_url` is a pure total function. -/
theorem c6_normalize_url_contract :
    (normalize_url "" = none)
  ∧ (normalize_url "   " = none)
  ∧ (normalize_url "example.com/x" = some "https://example.com/x")
  ∧ (∀ s, pyStrip s = "" → normalize_url s = none)
  ∧ (∀ s, pyStrip s ≠ "" → pyStartsWith (pyStrip s) "http://" = false →
       pyStartsWith (pyStrip s) "https://" = false →
       normalize_url s = some ("https://" ++ pyStrip s))
  ∧ (∀ fc sel v, (scrape_website fc sel v "").1
       = .error (.valueError "scrape_website expected a non-empty URL but got None/empty."))
  ∧ (∀ fc sel v, (scrape_website fc sel v "   ").1 = .error (.valueError "Cannot normalize URL")) := by
  refine ⟨by decide, by decide, by decide, ?_, ?_, ?_, ?_⟩
  · intro s h
    unfold normalize_url
    rw [h]
    simp
  · intro s h1 h2 h3
    have hs : s ≠ "" := by
      intro he
      rw [he] at h1
      exact h1 rfl
    simp [normalize_url, hs, h1, h2, h3]
  · intro fc sel v
    rfl
  · intro fc sel v
    rfl

/-- Witness for `c6_normalize_url_contract` at concrete inputs. -/
theorem c6_witness :
    normalize_url "  " = none
  ∧ normalize_url "www.x" = some "https://www.x"
  ∧ (scrape_website (fun _ => none) (fun _ => .ok "h") none "   ").1
      = .error (.valueError "Cannot normalize URL") :=
  ⟨c6_normalize_url_contract.2.2.2.1 "  " (by decide),
   c6_normalize_url_contract.2.2.2.2.1 "www.x" (by decide) (by decide) (by decide),
   c6_normalize_url_contract.2.2.2.2.2.2 (fun _ => none) (fun _ => .ok "h") none⟩

/-- C10: `normalize_url` is idempotent on its successes: any URL it returns
is already stripped and scheme-prefixed, so normalizing it again returns it
unchanged. -/
theorem c10_normalize_url_idempotent (s u : String) (h : normalize_url s = some u) :
    normalize_url u = some u := by
  unfold normalize_url at h
  split at h
  · exact Option.noConfusion h
  next hs =>
    split at h
    · exact Option.noConfusion h
    next hstrip =>
      split at h
      next hpre =>
        have hu : u = pyStrip s := (Option.some.inj h).symm
        subst hu
        unfold normalize_url
        rw [pyStrip_idem]
        rw [if_neg hstrip, if_neg hstrip, if_pos hpre]
      next hpre =>
        have hu : u = "https://" ++ pyStrip s := (Option.some.inj h).symm
        subst hu
        unfold normalize_url
        rw [pyStrip_https s hstrip]
        rw [if_neg (https_append_ne_empty _), if_neg (https_append_ne_empty _), if_pos]
        rw [pyStartsWith_https]
        simp

/-- Witness for `c10_normalize_url_idempotent` at a concrete input. -/
theorem c10_witness : normalize_url "https://example.com/x" = some "https://example.com/x" :=
  c10_normalize_url_idempotent "example.com/x" "https://example.com/x" (by decide)

/-- C1: `extract` (`parse_product_page`) is a total function — it never
raises for any input pair, which the embedding witnesses by returning a
`ProductRecord` on every input — and whenever internal parsing fails
entirely (the `except` path of agent.py line 337-338) it returns the record
whose fields are all absent except `link` and `source_url`, both set to the
input URL. -/
theorem c1_extract_total_and_failure_default :
    (∀ e url, parse_product_page (.error e) url
        = ⟨.null, none, url, .null, url, none⟩)
  ∧ (∀ inp url, (parse_product_page inp url).source_url = url) := by
  constructor
  · intro e url
    rfl
  · intro inp url
    cases inp with
    | error e => rfl
    | ok soup => rfl

/-- C9: on every path the record's `link` is the canonical `href` resolved
against the source URL when a canonical tag with a non-empty `href` exists,
and the source URL otherwise (in particular on the internal-failure path);
`source_url` is always the input URL, so `link` and `source_url` are never
both absent. -/
theorem c9_link_invariant :
    (∀ soup url, (parse_product_page (.ok soup) url).link
        = (match soup.canonical with
           | some href => if href != "" then urljoin url href else url
           | none => url))
  ∧ (∀ e url, (parse_product_page (.error e) url).link = url)
  ∧ (∀ inp url, (parse_product_page inp url).source_url = url) := by
  refine ⟨?_, ?_, ?_⟩
  · intro soup url
    rfl
  · intro e url
    rfl
  · intro inp url
    cases inp with
    | error e => rfl
    | ok soup => rfl

/-- C8: from HTML whose only product signal is a JSON-LD Product block with
name "Widget", `offers.price` "19.99" and `offers.priceCurrency` "USD" (and
no meta tags), `extract` yields name "Widget" and price "19.99 USD"; the
same price results when `offers` is a list (first element used) and when the
price sits in `offers.priceSpecification.price` instead of `offers.price`
(here with price "9"). -/
theorem c8_jsonld_widget_price : ∀ url canonical title,
    ((parse_product_page (.ok ⟨canonical, [], title,
        [.parsed (.obj [("@type", Json.str "Product"), ("name", Json.str "Widget"),
          ("offers", Json.obj [("price", Json.str "19.99"),
            ("priceCurrency", Json.str "USD")])])]⟩) url).name = Json.str "Widget"
      ∧ (parse_product_page (.ok ⟨canonical, [], title,
        [.parsed (.obj [("@type", Json.str "Product"), ("name", Json.str "Widget"),
          ("offers", Json.obj [("price", Json.str "19.99"),
            ("priceCurrency", Json.str "USD")])])]⟩) url).price = some "19.99 USD")
  ∧ ((parse_product_page (.ok ⟨canonical, [], title,
        [.parsed (.obj [("@type", Json.str "Product"), ("name", Json.str "Widget"),
          ("offers", Json.arr [Json.obj [("price", Json.str "19.99"),
            ("priceCurrency", Json.str "USD")], Json.str "ignored"])])]⟩) url).price
      = some "19.99 USD")
  ∧ ((parse_product_page (.ok ⟨canonical, [], title,
        [.parsed (.obj [("@type", Json.str "Product"), ("name", Json.str "Widget"),
          ("offers", Json.obj [("priceSpecification", Json.obj [("price", Json.str "9")]),
            ("priceCurrency", Json.str "USD")])])]⟩) url).price = some "9 USD") := by
  intro url canonical title
  exact ⟨⟨rfl, rfl⟩, rfl, rfl⟩

/-- Helper for C5: the per-candidate loop is a `filterMap` over the
candidates: a raised fetch or empty HTML yields no record; a successful
fetch yields the parsed record in place. -/
theorem scrapeLoop_eq_filterMap (fetch : String → Except PyErr String)
    (parseHtml : String → Except String Soup) (cs : List String) :
    scrapeLoop fetch parseHtml cs = cs.filterMap (fun url =>
      match fetch url with
      | .error _ => none
      | .ok html =>
        if html = "" then none
        else some (
          let parsed := parse_product_page (parseHtml html) url
          if parsed.link = "" then { parsed with link := url } else parsed)) := by
  induction cs with
  | nil => rfl
  | cons u rest ih =>
    rw [List.filterMap_cons]
    unfold scrapeLoop
    cases hf : fetch u with
    | error e => simpa [hf] using ih
    | ok html =>
      by_cases hh : html = ""
      · simpa [hf, hh] using ih
      · simp only [hf, hh, if_neg hh, ite_false]
        rw [ih]

/-- C5: the discovery orchestrator processes candidates independently — a
candidate whose fetch raises or yields empty HTML is skipped without
aborting the batch, the result is exactly the records of the successful
candidates in the candidates' relative order (a `filterMap`), a raised
search yields the empty result set; concretely, with 6 candidates of which
2 fail to fetch, exactly the 4 surviving records are returned in order. -/
theorem c5_orchestrator_filtermap :
    (∀ (fetch : String → Except PyErr String) (parseHtml : String → Except String Soup)
       (cs : List String),
      fetch_products_via_scrape (.ok cs) fetch parseHtml = cs.filterMap (fun url =>
        match fetch url with
        | .error _ => none
        | .ok html =>
          if html = "" then none
          else some (
            let parsed := parse_product_page (parseHtml html) url
            if parsed.link = "" then { parsed with link := url } else parsed)))
  ∧ (∀ (fetch : String → Except PyErr String) (parseHtml : String → Except String Soup)
       (e : PyErr), fetch_products_via_scrape (.error e) fetch parseHtml = [])
  ∧ (fetch_products_via_scrape (.ok ["u1", "u2", "u3", "u4", "u5", "u6"])
      (fun u => if u = "u2" ∨ u = "u5" then .error (.seleniumError "boom") else .ok "<html>")
      (fun _ => .ok ⟨none, [], none, []⟩)
      = [⟨.null, none, "u1", .null, "u1", none⟩, ⟨.null, none, "u3", .null, "u3", none⟩,
         ⟨.null, none, "u4", .null, "u4", none⟩, ⟨.null, none, "u6", .null, "u6", none⟩]) := by
  refine ⟨?_, ?_, ?_⟩
  · intro fetch parseHtml cs
    exact scrapeLoop_eq_filterMap fetch parseHtml cs
  · intro fetch parseHtml e
    rfl
  · rfl

/-- C7: if the primary search strategy returns a non-empty list, the chain
returns it and never invokes the fallback; if it returns zero candidates,
the chain invokes the DuckDuckGo fallback exactly once and returns its
(possibly empty) result. -/
theorem c7_search_chain (fcResp : FirecrawlResponse) (ddgResp : Option (List String))
    (query site : String) (n : Nat) (fc : List Json)
    (h : firecrawl_search fcResp query site n = .ok fc) :
    (fc ≠ [] → search_all fcResp ddgResp query site n = (.ok fc, ⟨1, 0⟩))
  ∧ (fc = [] → search_all fcResp ddgResp query site n
      = (.ok ((ddg_search ddgResp (ddgQuery site query) n).map Json.str), ⟨1, 1⟩)) := by
  constructor
  · intro hne
    cases fc with
    | nil => exact absurd rfl hne
    | cons a l => simp [search_all, h]
  · intro he
    subst he
    simp [search_all, h]

/-- Witness for `c7_search_chain`: with a missing API key the primary
strategy returns the empty list and the chain returns the fallback's result. -/
theorem c7_witness : search_all .noKey none "q" "" 5 = (.ok [], ⟨1, 1⟩) :=
  (c7_search_chain .noKey none "q" "" 5 [] rfl).2 rfl

/-- Helper for C2: the dedup accumulator produces a duplicate-free list
whose elements avoid the already-seen set. -/
theorem dedupeAux_nodup (l : List String) :
    ∀ seen, (dedupeAux seen l).Nodup ∧ ∀ x ∈ dedupeAux seen l, x ∉ seen := by
  induction l with
  | nil => intro seen; simp [dedupeAux]
  | cons u rest ih =>
    intro seen
    unfold dedupeAux
    by_cases hm : u ∈ seen
    · simpa [hm] using ih seen
    · obtain ⟨hn, hs⟩ := ih (u :: seen)
      simp only [hm, ite_false, if_neg]
      refine ⟨List.nodup_cons.mpr ⟨fun hu => ?_, hn⟩, ?_⟩
      · exact (hs u hu) (List.mem_cons_self u seen)
      · intro x hx
        rcases List.mem_cons.mp hx with h1 | h2
        · subst h1; exact hm
        · intro hxs; exact (hs x h2) (List.mem_cons_of_mem _ hxs)

/-- Helper for C2: order-preserving dedup yields a duplicate-free list. -/
theorem dedupe_nodup (l : List String) : (dedupe l).Nodup := (dedupeAux_nodup l []).1

/-- Helper for C2: the DuckDuckGo fallback always returns a duplicate-free
list. -/
theorem ddg_search_nodup (resp : Option (List String)) (query : String) (n : Nat) :
    (ddg_search resp query n).Nodup := by
  cases resp with
  | none => exact List.nodup_nil
  | some hrefs =>
    exact List.Nodup.sublist (List.take_sublist n _) (dedupe_nodup _)

/-- Helper for C2: every exit of the Firecrawl result-parsing loop truncates
to the requested count. -/
theorem firecrawlGo_length_le (data : Json) (n : Nat) :
    ∀ (keys : List String) (acc : List Json), (firecrawlGo data n keys acc).length ≤ n := by
  intro keys
  induction keys with
  | nil => intro acc; exact List.length_take_le ..
  | cons key rest ih =>
    intro acc
    unfold firecrawlGo
    split
    · dsimp only
      split
      · exact ih _
      · exact List.length_take_le ..
    · exact ih _

/-- Helper for C2: any list the Firecrawl strategy returns is bounded by the
requested count. -/
theorem firecrawl_search_length_le (resp : FirecrawlResponse) (query site : String)
    (n : Nat) (fc : List Json) (h : firecrawl_search resp query site n = .ok fc) :
    fc.length ≤ n := by
  cases resp with
  | noKey =>
    rw [← Except.ok.inj h]
    exact Nat.zero_le n
  | netError m =>
    rw [← Except.ok.inj h]
    exact Nat.zero_le n
  | httpStatus c =>
    rw [← Except.ok.inj h]
    exact Nat.zero_le n
  | badJson =>
    rw [← Except.ok.inj h]
    exact Nat.zero_le n
  | ok data =>
    unfold firecrawl_search at h
    by_cases ho : data.isObj
    · simp [ho] at h
      rw [← h]
      exact firecrawlGo_length_le data n _ _
    · simp [ho] at h

/-- C2 counterexample: when the search API lists the same URL twice under
the known "results" key, the primary strategy — and hence the chain —
returns it twice: the returned list is not duplicate-free. -/
theorem c2_counterexample :
    (search_all (.ok (.obj [("results", .arr [.obj [("url", Json.str "http://a")],
        .obj [("url", Json.str "http://a")]])])) none "q" "" 5).1
      = .ok [Json.str "http://a", Json.str "http://a"]
  ∧ ¬ ([Json.str "http://a", Json.str "http://a"] : List Json).Nodup := by
  constructor
  · rfl
  · intro h
    exact (List.nodup_cons.mp h).1 (List.mem_singleton.mpr rfl)

/-- C2 amended: whenever the search chain returns a list it has length at
most the requested count, and the fallback HTML-search strategy's list (and
any deduped list, as produced on the primary strategy's deep-walk path) is
duplicate-free; but the primary strategy's known-result-key path may return
duplicates exactly as listed by the API. -/
theorem c2_amended_length_and_dedup :
    (∀ fcResp ddgResp query site n l,
        (search_all fcResp ddgResp query site n).1 = .ok l → l.length ≤ n)
  ∧ (∀ resp query n, (ddg_search resp query n).Nodup)
  ∧ (∀ l, (dedupe l).Nodup) := by
  refine ⟨?_, ddg_search_nodup, dedupe_nodup⟩
  intro fcResp ddgResp query site n l h
  unfold search_all at h
  cases hfc : firecrawl_search fcResp query site n with
  | error e => rw [hfc] at h; simp at h
  | ok fc =>
    rw [hfc] at h
    by_cases he : fc.isEmpty
    · simp only [he, ite_true, if_pos] at h
      have hl : l = (ddg_search ddgResp (ddgQuery site query) n).map Json.str :=
        (Except.ok.inj h).symm
      subst hl
      rw [List.length_map]
      cases ddgResp with
      | none => simp [ddg_search]
      | some hrefs => exact List.length_take_le ..
    · simp only [he, ite_false, if_neg] at h
      have hl : l = fc := (Except.ok.inj h).symm
      subst hl
      exact firecrawl_search_length_le fcResp query site n l hfc

/-- Witness for `c2_amended_length_and_dedup` at concrete inputs. -/
theorem c2_witness :
    ([] : List Json).length ≤ 3 ∧ (ddg_search (some ["http://a", "http://a"]) "q" 5).Nodup :=
  ⟨c2_amended_length_and_dedup.1 .noKey none "q" "" 3 [] rfl,
   c2_amended_length_and_dedup.2.1 (some ["http://a", "http://a"]) "q" 5⟩

/-- C3 counterexample: with the API strategy yielding nothing and the
browser strategy returning an empty page source, the chain returns the empty
string as a successful result — it does not raise any failure, so there is
no `FetchFailure` and empty content is returned. -/
theorem c3_counterexample :
    (scrape_website (fun _ => none) (fun _ => .ok "") none "example.com").1 = .ok ""
  ∧ ∀ e : PyErr, (Except.ok "" : Except PyErr String) ≠ .error e := by
  constructor
  · rfl
  · intro e h
    exact Except.noConfusion h

/-- Helper for C3: when the API strategy returns non-empty HTML the chain
returns it without touching the browser strategy. -/
theorem scrapeChain_firecrawl (fc : String → Option String)
    (sel : String → Except PyErr String) (u h : String)
    (hfc : fc u = some h) (hne : h ≠ "") : scrapeChain fc sel u = (.ok h, ⟨1, 0⟩) := by
  unfold scrapeChain
  rw [hfc]
  simp [hne]

/-- Helper for C3: when the API strategy fails (returns `None` or empty
HTML) the chain invokes the browser strategy exactly once and returns its
outcome unchanged — its HTML even when empty, or its raw exception. -/
theorem scrapeChain_fallback (fc : String → Option String)
    (sel : String → Except PyErr String) (u : String)
    (hfc : fc u = none ∨ fc u = some "") : scrapeChain fc sel u = (sel u, ⟨1, 1⟩) := by
  unfold scrapeChain
  rcases hfc with h | h
  · rw [h]
  · rw [h]
    simp

/-- C3 amended: for every URL accepted by normalization (and by the optional
URL validator), the chain returns the API strategy's HTML when it is
non-empty; otherwise it invokes the browser strategy exactly once and
returns that strategy's outcome unchanged — its page source even when
empty, or its raw exception.  No `FetchFailure` wrapper exists in the
code. -/
theorem c3_amended_chain (fc : String → Option String)
    (sel : String → Except PyErr String) (v : Option (String → Bool)) (url u : String)
    (hnorm : normalize_url url = some u)
    (hv : ∀ f, v = some f → f u = true) :
    (∀ h, fc u = some h → h ≠ "" → scrape_website fc sel v url = (.ok h, ⟨1, 0⟩))
  ∧ ((fc u = none ∨ fc u = some "") → scrape_website fc sel v url = (sel u, ⟨1, 1⟩)) := by
  have hurl : url ≠ "" := by
    intro he
    rw [he] at hnorm
    exact Option.noConfusion hnorm
  have hmain : scrape_website fc sel v url = scrapeChain fc sel u := by
    unfold scrape_website
    rw [if_neg hurl, hnorm]
    cases v with
    | none => rfl
    | some f => simp [hv f rfl]
  constructor
  · intro h hfc hne
    rw [hmain]
    exact scrapeChain_firecrawl fc sel u h hfc hne
  · intro hfc
    rw [hmain]
    exact scrapeChain_fallback fc sel u hfc

/-- Witness for `c3_amended_chain` at concrete inputs. -/
theorem c3_witness :
    scrape_website (fun _ => some "X") (fun _ => .ok "Y") none "example.com"
      = (.ok "X", ⟨1, 0⟩) :=
  (c3_amended_chain (fun _ => some "X") (fun _ => .ok "Y") none "example.com"
    "https://example.com" (by decide) (fun f hf => Option.noConfusion hf)).1 "X" rfl
    (by decide)

/-- C4 counterexample: with two JSON-LD script blocks each containing a
Product, the scan finds the name in the first block, yet the second block's
Product still overwrites the price: the result has the first block's name
"A" but the second block's price "2", while the same HTML without the second
block yields price "1" — so a Product block occurring after the first
name-yielding one does contribute a field. -/
theorem c4_counterexample :
    (parse_product_page (.ok ⟨none, [], none,
        [.parsed (.obj [("@type", Json.str "Product"), ("name", Json.str "A"),
           ("offers", Json.obj [("price", Json.str "1")])]),
         .parsed (.obj [("@type", Json.str "Product"), ("name", Json.str "B"),
           ("offers", Json.obj [("price", Json.str "2")])])]⟩) "http://u").price = some "2"
  ∧ (parse_product_page (.ok ⟨none, [], none,
        [.parsed (.obj [("@type", Json.str "Product"), ("name", Json.str "A"),
           ("offers", Json.obj [("price", Json.str "1")])]),
         .parsed (.obj [("@type", Json.str "Product"), ("name", Json.str "B"),
           ("offers", Json.obj [("price", Json.str "2")])])]⟩) "http://u").name = Json.str "A"
  ∧ (parse_product_page (.ok ⟨none, [], none,
        [.parsed (.obj [("@type", Json.str "Product"), ("name", Json.str "A"),
           ("offers", Json.obj [("price", Json.str "1")])])]⟩) "http://u").price = some "1" :=
  ⟨rfl, rfl, rfl⟩

/-- Helper for C4: once a truthy name has been found, processing any further
item never changes the name. -/
theorem applyName_of_truthy (st : ScanSt) (it : Json) (h : st.name.truthy = true) :
    applyName st it = st := by
  unfold applyName
  rw [if_pos h]

theorem applyPriceVal_name (st : ScanSt) (p : Json) : (applyPriceVal st p).name = st.name := by
  unfold applyPriceVal
  split <;> rfl

theorem applyCurrency_name (st : ScanSt) (o : Json) : (applyCurrency st o).name = st.name := by
  unfold applyCurrency
  split <;> rfl

theorem applyImage_name (st : ScanSt) (it : Json) : (applyImage st it).name = st.name := by
  unfold applyImage
  split <;> rfl

theorem brkOrCont_name (st : ScanSt) : (brkOrCont st).st.name = st.name := by
  unfold brkOrCont
  split <;> rfl

theorem finishItem_name (st : ScanSt) (it : Json) : (finishItem st it).st.name = st.name := by
  unfold finishItem
  rw [brkOrCont_name, applyImage_name]

theorem productBranch_keeps_name (st : ScanSt) (it : Json) (h : st.name.truthy = true) :
    (productBranch st it).st.name = st.name := by
  unfold productBranch
  rw [applyName_of_truthy st it h]
  split
  · split
    · split
      · rfl
      · rw [finishItem_name, applyCurrency_name, applyPriceVal_name]
    · rfl
  · rw [finishItem_name]

theorem processItem_keeps_name (st : ScanSt) (it : Json) (h : st.name.truthy = true) :
    (processItem st it).st.name = st.name := by
  unfold processItem
  split
  · split
    · rfl
    · split
      · exact productBranch_keeps_name st it h
      · rfl
  · rfl

/-- Helper for C4: an item list never changes a name already found. -/
theorem processItems_keeps_name (items : List Json) :
    ∀ st : ScanSt, st.name.truthy = true →
      (scanResultSt (processItems st items)).name = st.name := by
  induction items with
  | nil => intro st h; rfl
  | cons it rest ih =>
    intro st h
    unfold processItems
    have hk := processItem_keeps_name st it h
    cases hres : processItem st it with
    | abort s2 =>
      rw [hres] at hk
      simp only [hres, scanResultSt]
      exact hk
    | brk s2 =>
      rw [hres] at hk
      simp only [hres, scanResultSt]
      exact hk
    | cont s2 =>
      rw [hres] at hk
      have hk2 : s2.name = st.name := hk
      simp only [hres]
      rw [← hk2]
      exact ih s2 (by rw [hk2]; exact h)

/-- Helper for C4: the whole JSON-LD scan never changes a name already
found. -/
theorem scanScripts_keeps_name (scripts : List ScriptBody) :
    ∀ st : ScanSt, st.name.truthy = true → (scanScripts st scripts).name = st.name := by
  induction scripts with
  | nil => intro st h; rfl
  | cons b rest ih =>
    intro st h
    cases b with
    | noString => exact ih st h
    | malformed => exact ih st h
    | parsed j =>
      unfold scanScripts
      generalize (match j with | Json.arr xs => xs | _ => [j]) = items
      have hp := processItems_keeps_name items st h
      cases hres : processItems st items with
      | error s2 =>
        rw [hres] at hp
        simp only [hres]
        exact hp
      | ok s2 =>
        have h2 : s2.name = st.name := by rw [hres] at hp; exact hp
        simp only [hres]
        rw [← h2]
        exact ih s2 (by rw [h2]; exact h)

/-- C4 amended: within a single JSON-LD script block the item scan stops at
the first Product item that yields a name (later items of that block are not
processed), and script bodies that are empty or fail to parse as JSON are
skipped without aborting the scan; but the scan does not stop across
blocks: subsequent script blocks are still processed and may overwrite the
price and image, while a name once found is preserved for the rest of the
scan. -/
theorem c4_amended_scan :
    (∀ st rest, scanScripts st (.malformed :: rest) = scanScripts st rest)
  ∧ (∀ st rest, scanScripts st (.noString :: rest) = scanScripts st rest)
  ∧ (∀ st it rest st2, processItem st it = .brk st2 →
       processItems st (it :: rest) = .ok st2)
  ∧ (∀ st scripts, st.name.truthy = true → (scanScripts st scripts).name = st.name) := by
  refine ⟨fun st rest => rfl, fun st rest => rfl, ?_,
    fun st scripts h => scanScripts_keeps_name scripts st h⟩
  intro st it rest st2 h
  unfold processItems
  simp only [h]

/-- Witness for `c4_amended_scan` at concrete inputs: the break hides the
malformed second item of the same block, and a found name survives a later
Product block. -/
theorem c4_witness :
    processItems ⟨.null, none, .null⟩
      [Json.obj [("@type", Json.str "Product"), ("name", Json.str "N")], Json.str "junk"]
      = .ok ⟨Json.str "N", none, .null⟩
  ∧ (scanScripts ⟨Json.str "A", none, .null⟩
      [.parsed (Json.obj [("@type", Json.str "Product"), ("name", Json.str "B")])]).name
      = Json.str "A" :=
  ⟨c4_amended_scan.2.2.1 ⟨.null, none, .null⟩ _ [Json.str "junk"]
      ⟨Json.str "N", none, .null⟩ rfl,
   c4_amended_scan.2.2.2 ⟨Json.str "A", none, .null⟩ _ rfl⟩
